import Mathlib

/-!
# Verification of the ShuaiTravelAgent streaming core

Shallow embedding, in Lean 4, of the streaming/orchestration core of the
ShuaiTravelAgent repository, together with proofs and refutations of the
frozen specification claims.

Embedded components (each definition names the Python source it models):

* `StreamChunk` and `streamMessageFrames` — the frame-emission loop of
  `AgentServicer.StreamMessage` (agent/src/server.py, lines 311-427);
* `PyQueue` — Python `queue.Queue` as used by the handler;
* `AgentServicerM` — the servicer construction and its use of a single
  shared `ReActTravelAgent` (agent/src/server.py, lines 215-224, 334-352);
* `ReActAgent.runAux` — the ReAct main loop (agent/src/core/react_agent.py,
  `ReActAgent.run`, `_should_stop`, `_update_state`, `_record_history`);
* `ToolRegistryM.execute` — tool dispatch with parameter validation and
  timeout handling (agent/src/core/react_agent.py, `ToolRegistry.execute`);
* `chatLoop` — the retry loop of `LLMClient.chat`
  (src/shuai_travel_agent/llm_client.py, lines 134-190);
* `processPlanMode` — the step-execution part of
  `ReActTravelAgent._process_plan_mode` (agent/src/core/travel_agent.py);
* `generateChatStream` — the RPC-to-SSE re-framer with heartbeats
  (web/src/routes/chat.py, `generate_chat_stream`).
-/

/-! ## Stream frames (proto `StreamChunk`) -/

/-- A wire frame of the server-streaming RPC: `StreamChunk{chunk_type, content,
is_last}` from the proto definition used by `agent/src/server.py`. -/
structure StreamChunk where
  chunkType : String
  content : String
  isLast : Bool
deriving DecidableEq, Repr

/-! ## The `StreamMessage` frame-emission loop (agent/src/server.py 311-427)

The handler starts an agent worker thread that feeds two `queue.Queue()`s
(`thinking_queue`, `answer_queue`) and a `done_event`/`error_holder`, and the
RPC-serving thread runs a polling loop: each iteration polls the thinking
queue (50 ms timeout), then the answer queue (50 ms timeout), then checks the
done event; on done it drains the remaining answer queue and breaks, after
which it emits the terminal frame.

We model one completed stream by the *dequeue outcomes* the serving thread
observed: a list of loop iterations (each iteration may have obtained a
thinking item and/or an answer token), the list of answer tokens drained
after the done event, and the final content of `error_holder`. -/

/-- Dequeue outcomes of one main-loop iteration in `StreamMessage`:
`thinkItem` is the result of `thinking_queue.get(timeout=0.05)` (`none` for
`queue.Empty`), `answerItem` the result of `answer_queue.get(timeout=0.05)`.
The thinking poll comes first in the loop body, so within one iteration the
thinking item is processed before the answer item. -/
structure IterObs where
  thinkItem : Option String
  answerItem : Option String
deriving DecidableEq, Repr

/-- Frames emitted when an answer token arrives and `answer_started` is still
false: `thinking_end` if `thinking_sent`, then `answer_start`
(server.py 379-383 and the identical drain branch 396-400). -/
def beginAnswerFrames (thinkingSent answerStarted : Bool) : List StreamChunk :=
  if answerStarted then []
  else (if thinkingSent then [⟨"thinking_end", "", false⟩] else [])
    ++ [⟨"answer_start", "", false⟩]

/-- One iteration of the `StreamMessage` main loop (server.py 366-388), acting
on the state pair `(thinking_sent, answer_started)` and returning the frames
yielded during the iteration. -/
def iterFrames (st : Bool × Bool) (o : IterObs) : (Bool × Bool) × List StreamChunk :=
  let ts := st.1
  let as0 := st.2
  let ts1 : Bool := match o.thinkItem with | some _ => true | none => ts
  let thinkFrames : List StreamChunk :=
    match o.thinkItem with
    | some c => [⟨"thinking_chunk", c, false⟩]
    | none => []
  match o.answerItem with
  | some tok =>
      ((ts1, true), thinkFrames ++ beginAnswerFrames ts1 as0 ++ [⟨"answer", tok, false⟩])
  | none => ((ts1, as0), thinkFrames)

/-- The main loop over a list of iteration observations. -/
def runIters (st : Bool × Bool) : List IterObs → (Bool × Bool) × List StreamChunk
  | [] => (st, [])
  | o :: rest =>
    let p := iterFrames st o
    let q := runIters p.1 rest
    (q.1, p.2 ++ q.2)

/-- The non-blocking drain of `answer_queue` after `done_event` is set
(server.py 393-405): the same `answer_started` logic, answer frames only. -/
def drainFrames (st : Bool × Bool) : List String → (Bool × Bool) × List StreamChunk
  | [] => (st, [])
  | tok :: rest =>
    let fs := beginAnswerFrames st.1 st.2 ++ [⟨"answer", tok, false⟩]
    let q := drainFrames (st.1, true) rest
    (q.1, fs ++ q.2)

/-- Frames emitted after the loop (server.py 411-420): if the error slot is
set, `thinking_end` when the answer never started, then the `error` terminal;
otherwise the `done` terminal. Both terminals carry `is_last=true`. -/
def terminalFrames (answerStarted : Bool) (err : Option String) : List StreamChunk :=
  match err with
  | some e =>
      (if answerStarted then [] else [⟨"thinking_end", "", false⟩]) ++ [⟨"error", e, true⟩]
  | none => [⟨"done", "", true⟩]

/-- The frames emitted from the post-done drain onward, starting from queue
state `st`: drained answer frames followed by the terminal frame. -/
def restFramesD (st : Bool × Bool) (drain : List String) (err : Option String) :
    List StreamChunk :=
  (drainFrames st drain).2 ++ terminalFrames (drainFrames st drain).1.2 err

/-- The frames emitted from loop state `st` onward: the remaining loop
iterations, then the drain, then the terminal frame. -/
def restFrames (st : Bool × Bool) (iters : List IterObs) (drain : List String)
    (err : Option String) : List StreamChunk :=
  (runIters st iters).2 ++ restFramesD (runIters st iters).1 drain err

/-- All frames of one completed `StreamMessage` stream: the initial
`thinking_start` (server.py 315), the main loop, the post-done drain, and the
terminal frame. -/
def streamMessageFrames (iters : List IterObs) (drain : List String)
    (err : Option String) : List StreamChunk :=
  ⟨"thinking_start", "", false⟩ :: restFrames (false, false) iters drain err

/-! ### The claimed frame-order regular expression (P1)

`thinking_start (thinking_chunk* thinking_end)? (answer_start answer*)?
(done|error)`, with exactly one terminal frame, `is_last` true on the
terminal and false elsewhere, and no frame after the terminal. -/

/-- Is this frame a terminal (`done` or `error`)? -/
def isTerminal (c : StreamChunk) : Bool :=
  c.chunkType == "done" || c.chunkType == "error"

/-- Accept `answer* (done|error)` with `is_last` only on the terminal. -/
def p1Answers : List StreamChunk → Bool
  | [c] => isTerminal c && c.isLast
  | c :: rest => c.chunkType == "answer" && !c.isLast && p1Answers rest
  | [] => false

/-- Accept `(answer_start answer*)? (done|error)`. -/
def p1AfterThinking : List StreamChunk → Bool
  | [c] => isTerminal c && c.isLast
  | c :: rest => c.chunkType == "answer_start" && !c.isLast && p1Answers rest
  | [] => false

/-- Accept `(thinking_chunk* thinking_end)? (answer_start answer*)?
(done|error)`; `sawChunk` records whether a `thinking_chunk` has been
consumed, in which case the group must be closed by `thinking_end`. -/
def p1Think (sawChunk : Bool) : List StreamChunk → Bool
  | [] => false
  | c :: rest =>
    if c.chunkType == "thinking_chunk" && !c.isLast then p1Think true rest
    else if c.chunkType == "thinking_end" && !c.isLast then p1AfterThinking rest
    else if sawChunk then false
    else p1AfterThinking (c :: rest)

/-- The frame-order invariant claimed for every completed RPC stream. -/
def matchesP1 (l : List StreamChunk) : Bool :=
  match l with
  | c :: rest => c.chunkType == "thinking_start" && !c.isLast && p1Think false rest
  | [] => false

example : matchesP1 [⟨"thinking_start", "", false⟩, ⟨"done", "", true⟩] = true := by decide

example : matchesP1 [⟨"thinking_start", "", false⟩, ⟨"thinking_chunk", "t", false⟩,
    ⟨"thinking_end", "", false⟩, ⟨"answer_start", "", false⟩, ⟨"answer", "a", false⟩,
    ⟨"done", "", true⟩] = true := by decide

example : matchesP1 (streamMessageFrames [⟨some "t", none⟩] [] none) = false := by decide

/-! ### The frame order actually enforced by the handler

The claimed regular expression fails on one family of completed streams: when
the agent thread finishes successfully without ever producing an answer token
(`chat_stream` yields nothing), the handler emits
`thinking_start thinking_chunk* done` — the `thinking_end` closing frame is
only emitted on the first answer token or on the error path, never before a
bare `done` (server.py 379-420).  The shape actually enforced, for streams in
which no thinking item is dequeued after an answer token (the agent enqueues
all thoughts before the first token), is:

`thinking_start thinking_chunk* ( done
  | thinking_end error
  | (thinking_end if any chunk) answer_start answer+ (done|error) )` -/

/-- Accept `answer answer* (done|error)`. -/
def pAnswersPlus : List StreamChunk → Bool
  | c :: rest => c.chunkType == "answer" && !c.isLast && p1Answers rest
  | [] => false

/-- Accept what may follow a `thinking_end`: a bare `error` terminal (the
no-answer error path) or, when a thinking chunk was sent, `answer_start`
followed by at least one answer. -/
def pAfterEnd (sawChunk : Bool) : List StreamChunk → Bool
  | [c] => c.chunkType == "error" && c.isLast
  | c :: rest => sawChunk && c.chunkType == "answer_start" && !c.isLast && pAnswersPlus rest
  | [] => false

/-- Accept the handler's post-`thinking_start` frame language; `sawChunk`
records whether a `thinking_chunk` has been consumed. -/
def pAmend (sawChunk : Bool) : List StreamChunk → Bool
  | [] => false
  | [c] => c.chunkType == "done" && c.isLast
  | c :: rest =>
    if c.chunkType == "thinking_chunk" && !c.isLast then pAmend true rest
    else if c.chunkType == "thinking_end" && !c.isLast then pAfterEnd sawChunk rest
    else if c.chunkType == "answer_start" && !c.isLast then !sawChunk && pAnswersPlus rest
    else false

/-- The amended frame-order invariant for a completed RPC stream. -/
def matchesP1Amended (l : List StreamChunk) : Bool :=
  match l with
  | c :: rest => c.chunkType == "thinking_start" && !c.isLast && pAmend false rest
  | [] => false

/-- Acceptance continuation from a mid-stream handler state
`(thinking_sent, answer_started)`. -/
def midAccept (st : Bool × Bool) (l : List StreamChunk) : Bool :=
  if st.2 then p1Answers l else pAmend st.1 l

/-- No iteration of `l` dequeued a thinking item. -/
def noThink (l : List IterObs) : Bool := l.all (fun o => o.thinkItem.isNone)

/-- The stream's dequeue order is phased: once an iteration dequeues an
answer token, no later iteration dequeues a thinking item.  This holds for
the runs of the real producer (`process_stream` invokes the thinking
callback only during `react_agent.run`, strictly before the first
`answer_callback`), provided the serving thread has drained the thinking
queue before reaching the first answer token. -/
def phased : List IterObs → Bool
  | [] => true
  | o :: rest => (!o.answerItem.isSome || noThink rest) && phased rest

theorem terminalFrames_ne_nil (b : Bool) (err : Option String) :
    terminalFrames b err ≠ [] := by
  cases err <;> cases b <;> simp [terminalFrames]

theorem restFramesD_ne_nil (st : Bool × Bool) (drain : List String)
    (err : Option String) : restFramesD st drain err ≠ [] := by
  intro h
  rcases List.append_eq_nil.mp h with ⟨-, h2⟩
  exact terminalFrames_ne_nil _ _ h2

theorem restFrames_ne_nil (st : Bool × Bool) (iters : List IterObs)
    (drain : List String) (err : Option String) :
    restFrames st iters drain err ≠ [] := by
  intro h
  rcases List.append_eq_nil.mp h with ⟨-, h2⟩
  exact restFramesD_ne_nil _ _ _ h2

theorem p1Answers_cons_answer (tok : String) (l : List StreamChunk) (h : l ≠ []) :
    p1Answers (⟨"answer", tok, false⟩ :: l) = p1Answers l := by
  cases l with
  | nil => exact absurd rfl h
  | cons b m => simp [p1Answers]

theorem restFramesD_cons (ts as0 : Bool) (tok : String) (rest : List String)
    (err : Option String) :
    restFramesD (ts, as0) (tok :: rest) err =
      (beginAnswerFrames ts as0 ++ [⟨"answer", tok, false⟩]) ++ restFramesD (ts, true) rest err := by
  simp [restFramesD, drainFrames, List.append_assoc]

theorem drainAccept (drain : List String) : ∀ (st : Bool × Bool) (err : Option String),
    midAccept st (restFramesD st drain err) = true := by
  induction drain with
  | nil =>
    intro st err
    obtain ⟨ts, as0⟩ := st
    cases as0 <;> cases err <;> cases ts <;>
      simp [restFramesD, drainFrames, terminalFrames, midAccept, pAmend, p1Answers,
        pAfterEnd, isTerminal]
  | cons tok rest ih =>
    intro st err
    obtain ⟨ts, as0⟩ := st
    have hne := restFramesD_ne_nil (ts, true) rest err
    have hih := ih (ts, true) err
    simp only [midAccept, if_pos] at hih
    rw [restFramesD_cons]
    cases as0 with
    | true =>
      simp only [midAccept, beginAnswerFrames, if_pos, List.nil_append, List.cons_append]
      rw [p1Answers_cons_answer _ _ hne]
      exact hih
    | false =>
      cases ts with
      | true =>
        simp [midAccept, beginAnswerFrames, pAmend, pAfterEnd, pAnswersPlus]
        exact hih
      | false =>
        simp [midAccept, beginAnswerFrames, pAmend, pAnswersPlus]
        exact hih

theorem restFrames_cons (st : Bool × Bool) (o : IterObs) (rest : List IterObs)
    (drain : List String) (err : Option String) :
    restFrames st (o :: rest) drain err =
      (iterFrames st o).2 ++ restFrames (iterFrames st o).1 rest drain err := by
  simp [restFrames, runIters, List.append_assoc]

theorem pAmend_cons_chunk (saw : Bool) (t : String) (l : List StreamChunk) (h : l ≠ []) :
    pAmend saw (⟨"thinking_chunk", t, false⟩ :: l) = pAmend true l := by
  cases l with
  | nil => exact absurd rfl h
  | cons b m => simp [pAmend]

theorem noThink_cons (o : IterObs) (rest : List IterObs) :
    noThink (o :: rest) = (o.thinkItem.isNone && noThink rest) := rfl

theorem phased_cons (o : IterObs) (rest : List IterObs) :
    phased (o :: rest) = ((!o.answerItem.isSome || noThink rest) && phased rest) := rfl

theorem loopAccept (iters : List IterObs) :
    ∀ (st : Bool × Bool) (drain : List String) (err : Option String),
    (st.2 = true → noThink iters = true) → phased iters = true →
    midAccept st (restFrames st iters drain err) = true := by
  induction iters with
  | nil =>
    intro st drain err _ _
    simpa [restFrames, runIters] using drainAccept drain st err
  | cons o rest ih =>
    intro st drain err h1 h2
    obtain ⟨ts, as0⟩ := st
    obtain ⟨th, ans⟩ := o
    rw [restFrames_cons]
    rw [phased_cons, Bool.and_eq_true] at h2
    have h2' : phased rest = true := h2.2
    cases ans with
    | none =>
      cases th with
      | none =>
        simp only [iterFrames, List.nil_append]
        apply ih (ts, as0) drain err _ h2'
        intro h
        have hh := h1 h
        rw [noThink_cons, Bool.and_eq_true] at hh
        exact hh.2
      | some t =>
        cases as0 with
        | true =>
          exfalso
          have hh := h1 rfl
          rw [noThink_cons, Bool.and_eq_true] at hh
          simpa using hh.1
        | false =>
          have hne := restFrames_ne_nil (true, false) rest drain err
          have hih := ih (true, false) drain err (by intro h; cases h) h2'
          simp only [midAccept, if_neg, Bool.false_eq_true, not_false_eq_true] at hih
          simp only [iterFrames, List.cons_append, List.nil_append, midAccept]
          simp only [if_neg, Bool.false_eq_true, not_false_eq_true]
          rw [pAmend_cons_chunk _ _ _ hne]
          exact hih
    | some tok =>
      have hnt : noThink rest = true := by
        simpa using h2.1
      cases as0 with
      | true =>
        have hth : th = none := by
          have hh := h1 rfl
          rw [noThink_cons, Bool.and_eq_true] at hh
          simpa [Option.isNone_iff_eq_none] using hh.1
        subst hth
        have hne := restFrames_ne_nil (ts, true) rest drain err
        have hih := ih (ts, true) drain err (fun _ => hnt) h2'
        simp only [midAccept, if_pos] at hih
        simp only [iterFrames, beginAnswerFrames, if_pos, List.nil_append,
          List.cons_append, midAccept]
        rw [p1Answers_cons_answer _ _ hne]
        exact hih
      | false =>
        cases th with
        | none =>
          have hih := ih (ts, true) drain err (fun _ => hnt) h2'
          simp only [midAccept, if_pos] at hih
          cases ts with
          | true =>
            simp only [iterFrames, beginAnswerFrames, midAccept]
            simp [pAmend, pAfterEnd, pAnswersPlus]
            exact hih
          | false =>
            simp only [iterFrames, beginAnswerFrames, midAccept]
            simp [pAmend, pAnswersPlus]
            exact hih
        | some t =>
          have hih := ih (true, true) drain err (fun _ => hnt) h2'
          simp only [midAccept, if_pos] at hih
          simp only [iterFrames, beginAnswerFrames, midAccept]
          simp [pAmend, pAfterEnd, pAnswersPlus]
          exact hih

/-- C1 (counterexample): the claimed regular expression
`thinking_start (thinking_chunk* thinking_end)? (answer_start answer*)?
(done|error)` fails on a reachable completed stream.  When the worker thread
finishes successfully but streams zero answer tokens (`chat_stream` can yield
nothing), the serving loop dequeues the thinking items and then sees the done
event with an empty answer queue: the emitted frames are
`thinking_start thinking_chunk done`, with no `thinking_end` closing the
thinking group, so the sequence is rejected by the claimed expression. -/
theorem c1_counterexample :
    streamMessageFrames [⟨some "分析任务", none⟩] [] none =
      [⟨"thinking_start", "", false⟩, ⟨"thinking_chunk", "分析任务", false⟩,
        ⟨"done", "", true⟩] ∧
    matchesP1 (streamMessageFrames [⟨some "分析任务", none⟩] [] none) = false := by
  constructor
  · rfl
  · decide

/-- C1 (amended): for every completed `StreamMessage` stream whose dequeue
order is phased (no thinking item dequeued after an answer token — the order
produced by `process_stream`, which finishes all thinking callbacks before
the first answer callback), the emitted `chunk_type` sequence matches
`thinking_start thinking_chunk* ( done | thinking_end error |
(thinking_end if any chunk was sent) answer_start answer+ (done|error) )`,
with exactly one terminal frame carrying `is_last=true`, `is_last=false` on
every other frame, and no frame after the terminal.  In particular
`thinking_end` is omitted before a bare `done`, and on the no-answer error
path `thinking_end` is emitted even when no thinking chunk was sent. -/
theorem c1_frame_order_amended (iters : List IterObs) (drain : List String)
    (err : Option String) (h : phased iters = true) :
    matchesP1Amended (streamMessageFrames iters drain err) = true := by
  have hmain := loopAccept iters (false, false) drain err (by intro h'; cases h') h
  simp only [midAccept] at hmain
  simp only [streamMessageFrames, matchesP1Amended]
  simpa using hmain

/-- C1 (witness): the amended frame-order theorem applied to a concrete
stream with one thinking chunk, one loop answer token and one drained answer
token. -/
theorem c1_frame_order_amended_witness :
    phased [⟨some "思考", none⟩, ⟨none, some "答"⟩] = true ∧
    matchesP1Amended (streamMessageFrames
      [⟨some "思考", none⟩, ⟨none, some "答"⟩] ["案"] none) = true :=
  ⟨by decide, c1_frame_order_amended _ _ _ (by decide)⟩

/-! ## Python `queue.Queue` and the handler's per-request queues (C2)

`StreamMessage` allocates `answer_queue = queue.Queue()` and
`thinking_queue = queue.Queue()` (server.py 322-323).  Python's
`queue.Queue(maxsize=0)` — the default — is documented as an *infinite*
queue: `full()` is true only when `0 < maxsize <= _qsize()`, and a blocking
`put` waits only while the queue is full. -/

/-- Python `queue.Queue`: the `maxsize` given at construction and the queued
items, oldest first. -/
structure PyQueue (α : Type) where
  maxsize : Int
  items : List α
deriving DecidableEq, Repr

/-- `queue.Queue()` with the default `maxsize=0`. -/
def PyQueue.new (α : Type) : PyQueue α := ⟨0, []⟩

/-- Python `Queue.full()`: `0 < maxsize <= _qsize()`. -/
def PyQueue.full {α : Type} (q : PyQueue α) : Bool :=
  decide (0 < q.maxsize) && decide (q.maxsize ≤ (q.items.length : Int))

/-- A blocking `Queue.put` waits for space exactly while the queue is full. -/
def PyQueue.putBlocks {α : Type} (q : PyQueue α) : Bool := q.full

/-- The effect of `Queue.put(item)` once space is available. -/
def PyQueue.put {α : Type} (q : PyQueue α) (a : α) : PyQueue α :=
  { q with items := q.items ++ [a] }

/-- `n` successive puts of the same item. -/
def PyQueue.putN {α : Type} (q : PyQueue α) (a : α) : Nat → PyQueue α
  | 0 => q
  | n + 1 => (q.putN a n).put a

/-- The per-request answer queue created by `StreamMessage` (server.py 322):
`answer_queue = queue.Queue()` — no `maxsize` argument. -/
def streamMessageAnswerQueue : PyQueue String := PyQueue.new String

/-- The per-request thinking queue created by `StreamMessage`
(server.py 323): `thinking_queue = queue.Queue()`; items are the
`(content, elapsed)` pairs pushed by the `on_think` callback. -/
def streamMessageThinkingQueue : PyQueue (String × Rat) := PyQueue.new (String × Rat)

theorem PyQueue.putN_maxsize {α : Type} (q : PyQueue α) (a : α) (n : Nat) :
    (q.putN a n).maxsize = q.maxsize := by
  induction n with
  | zero => rfl
  | succ n ih => simp [PyQueue.putN, PyQueue.put, ih]

theorem PyQueue.putN_length {α : Type} (q : PyQueue α) (a : α) (n : Nat) :
    (q.putN a n).items.length = q.items.length + n := by
  induction n with
  | zero => rfl
  | succ n ih => simp [PyQueue.putN, PyQueue.put, ih]; omega

/-- C2 (counterexample): the per-request queues are not bounded FIFOs of any
capacity (in particular not 256): after 300 puts the answer queue holds 300
buffered tokens and a further blocking `put` still does not block, because
`queue.Queue()` was constructed with the default `maxsize=0` (infinite). -/
theorem c2_counterexample :
    streamMessageAnswerQueue.maxsize = 0 ∧
    (streamMessageAnswerQueue.putN "token" 300).items.length = 300 ∧
    (streamMessageAnswerQueue.putN "token" 300).putBlocks = false := by
  refine ⟨rfl, ?_, ?_⟩
  · rw [PyQueue.putN_length]; rfl
  · simp [PyQueue.putBlocks, PyQueue.full, PyQueue.putN_maxsize]
    intro h
    simp [streamMessageAnswerQueue, PyQueue.new] at h

/-- C2 (amended): the per-request thinking and answer queues are thread-safe
FIFOs but are created *unbounded* (`queue.Queue()` with the default
`maxsize=0`): a producer callback never blocks, whatever the number of
already-buffered tokens, so the number of tokens buffered inside the handler
is not bounded by any queue capacity and no back-pressure is applied to the
token producer. -/
theorem c2_queues_unbounded :
    streamMessageAnswerQueue.maxsize = 0 ∧
    streamMessageThinkingQueue.maxsize = 0 ∧
    (∀ (n : Nat) (tok : String),
      (streamMessageAnswerQueue.putN tok n).putBlocks = false ∧
      (streamMessageAnswerQueue.putN tok n).items.length = n) ∧
    (∀ (n : Nat) (item : String × Rat),
      (streamMessageThinkingQueue.putN item n).putBlocks = false ∧
      (streamMessageThinkingQueue.putN item n).items.length = n) := by
  refine ⟨rfl, rfl, fun n tok => ⟨?_, ?_⟩, fun n item => ⟨?_, ?_⟩⟩ <;>
    simp [PyQueue.putBlocks, PyQueue.full, PyQueue.putN_maxsize, PyQueue.putN_length,
      streamMessageAnswerQueue, streamMessageThinkingQueue, PyQueue.new]

/-! ## The Agent servicer and session state (C3)

`AgentServicer.__init__` (server.py 215-224) constructs **one**
`ReActTravelAgent` and stores it in `self.agent`.  `ProcessMessage`
(server.py 271) and `StreamMessage` (server.py 340-352) both operate on
`self.agent`; the request's `session_id` field is never read to select an
orchestrator or a memory.  `ReActTravelAgent.__init__`
(travel_agent.py 557-597) owns one `MemoryManager`, and
`process_stream` begins with
`self.memory_manager.add_message('user', user_input)` (travel_agent.py 760). -/

/-- The gRPC `MessageRequest{session_id, user_input, model_id, stream}`. -/
structure MessageRequest where
  sessionId : String
  userInput : String
  modelId : String
  stream : Bool
deriving DecidableEq, Repr

/-- `MemoryManager` (agent/src/memory/manager.py 201-243): the working
memory `conversation_history` is a `deque(maxlen=max_working_memory)` of
`(role, content)` messages; appending past capacity drops the oldest. -/
structure MemoryManagerM where
  maxWorkingMemory : Nat
  conversationHistory : List (String × String)
deriving DecidableEq, Repr

/-- `MemoryManager.add_message(role, content)` (manager.py 230-243):
append, with the deque dropping the oldest entries beyond `maxlen`. -/
def MemoryManagerM.addMessage (m : MemoryManagerM) (role content : String) :
    MemoryManagerM :=
  let h := m.conversationHistory ++ [(role, content)]
  { m with conversationHistory :=
      if m.maxWorkingMemory < h.length then h.drop (h.length - m.maxWorkingMemory) else h }

/-- `ReActTravelAgent` (travel_agent.py 557-597), restricted to the state
relevant to session isolation: the config path it was built from and its
single `MemoryManager` (default `max_working_memory` is 10). -/
structure ReActTravelAgentM where
  configPath : String
  memory : MemoryManagerM
deriving DecidableEq, Repr

/-- `ReActTravelAgent(config_path=...)`. -/
def ReActTravelAgentM.mk0 (configPath : String) : ReActTravelAgentM :=
  ⟨configPath, ⟨10, []⟩⟩

/-- `AgentServicer` (server.py 215-224): `self.config_path` and the single
shared `self.agent = ReActTravelAgent(config_path=config_path)`. -/
structure AgentServicerM where
  configPath : String
  agent : ReActTravelAgentM
deriving DecidableEq, Repr

/-- `AgentServicer.__init__`. -/
def AgentServicerM.mk0 (configPath : String) : AgentServicerM :=
  ⟨configPath, ReActTravelAgentM.mk0 configPath⟩

/-- The orchestrator a request is processed against: both `ProcessMessage`
and `StreamMessage` use `self.agent`; the request (in particular its
`session_id`) is not consulted. -/
def AgentServicerM.agentFor (s : AgentServicerM) (_req : MessageRequest) :
    ReActTravelAgentM :=
  s.agent

/-- The servicer-state effect of processing a request: `process_stream`
(travel_agent.py 760) adds the user message to the shared agent's memory
manager. -/
def AgentServicerM.streamMessageMemoryEffect (s : AgentServicerM)
    (req : MessageRequest) : AgentServicerM :=
  { s with agent :=
      { s.agent with memory := s.agent.memory.addMessage "user" req.userInput } }

/-- The conversation history visible to a request's processing: the shared
agent's `memory_manager.conversation_history`. -/
def AgentServicerM.visibleHistory (s : AgentServicerM) (_req : MessageRequest) :
    List (String × String) :=
  s.agent.memory.conversationHistory

/-- C3 (counterexample): conversation messages cross sessions.  After the
servicer processes a request for session `session-a` with input 我想去北京,
the conversation memory visible to a request for the distinct session
`session-b` already contains session-a's user message, because every request
is processed against the single shared `self.agent`. -/
theorem c3_counterexample :
    ("session-a" : String) ≠ "session-b" ∧
    (AgentServicerM.streamMessageMemoryEffect
        (AgentServicerM.mk0 "config/llm_config.yaml")
        ⟨"session-a", "我想去北京", "", true⟩).visibleHistory
      ⟨"session-b", "你好", "", true⟩ = [("user", "我想去北京")] := by
  exact ⟨by decide, rfl⟩

/-- C3 (amended): the Agent servicer owns a single `ReActTravelAgent`
created at startup and uses it for every request: the orchestrator selected
for a request does not depend on the request, the state effect of processing
depends only on `user_input` (the `session_id` is ignored), and all requests
observe the same conversation memory.  Session isolation is not provided by
the Agent servicer. -/
theorem c3_single_shared_agent :
    (∀ (s : AgentServicerM) (r1 r2 : MessageRequest),
      s.agentFor r1 = s.agentFor r2) ∧
    (∀ (s : AgentServicerM) (r1 r2 : MessageRequest), r1.userInput = r2.userInput →
      s.streamMessageMemoryEffect r1 = s.streamMessageMemoryEffect r2) ∧
    (∀ (s : AgentServicerM) (r1 r2 : MessageRequest),
      s.visibleHistory r1 = s.visibleHistory r2) := by
  refine ⟨fun s r1 r2 => rfl, fun s r1 r2 h => ?_, fun s r1 r2 => rfl⟩
  simp [AgentServicerM.streamMessageMemoryEffect, h]

/-- C3 (witness): the shared-agent theorem applied to two concrete requests
that differ in `session_id` and `model_id` but carry the same input. -/
theorem c3_single_shared_agent_witness :
    (AgentServicerM.mk0 "cfg").streamMessageMemoryEffect ⟨"a", "你好", "", true⟩ =
      (AgentServicerM.mk0 "cfg").streamMessageMemoryEffect ⟨"b", "你好", "m", false⟩ :=
  c3_single_shared_agent.2.1 _ _ _ rfl

/-! ## Python values -/

/-- A fragment of Python values, enough for tool parameters and results. -/
inductive PyVal where
  | pyNone : PyVal
  | pyBool : Bool → PyVal
  | pyInt : Int → PyVal
  | pyStr : String → PyVal
  | pyList : List PyVal → PyVal
  | pyDict : List (String × PyVal) → PyVal

/-! ## The ReAct engine (agent/src/core/react_agent.py) -/

/-- `ThoughtType` (react_agent.py 117-127). -/
inductive ThoughtTypeM where
  | analysis | planning | decision | reflection | inference
deriving DecidableEq, Repr

/-- `Thought` (react_agent.py 228-248); `confidence` is a Python float with
two decimal digits in all values the engine assigns (0.8 default, 0.9, 0.95),
modelled exactly as an integer count of hundredths. -/
structure ThoughtM where
  id : String
  ttype : ThoughtTypeM
  content : String
  confidenceHundredths : Int
  decision : Option String
deriving DecidableEq, Repr

/-- `ActionStatus` (react_agent.py 105-114). -/
inductive ActionStatusM where
  | pending | running | success | failed
deriving DecidableEq, Repr

/-- `Action` (react_agent.py 156-225), as it stands when `_act` returns it:
terminal status, optional result or error, duration in milliseconds. -/
structure ActionM where
  id : String
  toolName : String
  status : ActionStatusM
  result : Option PyVal
  error : Option String
  duration : Nat

/-- The evaluation dict built by `EvaluationEngine.evaluate_result`
(react_agent.py 1108-1131): `{success, duration, has_result}`. -/
structure EvaluationM where
  success : Bool
  duration : Nat
  hasResult : Bool
deriving DecidableEq, Repr

/-- `EvaluationEngine.evaluate_result`. -/
def evaluateResult (a : ActionM) : EvaluationM :=
  ⟨a.status == ActionStatusM.success, a.duration, a.result.isSome⟩

/-- One entry of `self.state.history` as appended by `_record_history`
(react_agent.py 1611-1644); the `timestamp` field is omitted. -/
structure HistEntryM where
  step : Nat
  thought : ThoughtM
  action : ActionM
  evaluation : EvaluationM

/-- The engine state tracked by `run`: `AgentStateData` fields plus the
agent-level `action_history`/`thought_history` lists (which are *not*
cleared by `run`; only `reset()` clears them). -/
structure RunStateM where
  task : String
  currentStep : Nat
  maxSteps : Nat
  history : List HistEntryM
  actionHistory : List ActionM
  thoughtHistory : List ThoughtM

/-- The dict returned by `ReActAgent.run`.  `Option` fields model dict keys
present only on some return paths: the exception path
(react_agent.py 1332-1337) returns only `success`, `error`, `task` and
`steps_completed`. -/
structure RunResultM where
  success : Bool
  error : Option String
  task : String
  stepsCompleted : Nat
  successfulSteps : Option Nat
  totalDuration : Option Nat
  history : Option (List HistEntryM)

/-- `ReActAgent._build_result` (react_agent.py 1646-1668); at its call sites
`current_state` is always `COMPLETED`, so `success` is true. -/
def buildResult (st : RunStateM) : RunResultM :=
  { success := true
    error := none
    task := st.task
    stepsCompleted := st.history.length
    successfulSteps := some ((st.history.filter (fun e => e.evaluation.success)).length)
    totalDuration := some ((st.history.map (fun e => e.action.duration)).sum)
    history := some st.history }

/-- The dict returned by the `except` branch of `run`
(react_agent.py 1329-1337): no `history`, `successful_steps` or
`total_duration` keys. -/
def runErrorResult (st : RunStateM) (e : String) : RunResultM :=
  { success := false
    error := some e
    task := st.task
    stepsCompleted := st.currentStep
    successfulSteps := none
    totalDuration := none
    history := none }

/-- `ReActAgent._should_stop` (react_agent.py 1448-1480): stop when (1) the
thought is an Inference and the last action ran one of the terminal tools
successfully, or (2) confidence exceeds 0.9 with a decision present and a
successful last action, or (3) `current_step >= max_steps - 1` (a Python
`int` comparison, hence taken over ℤ). -/
def shouldStop (actionHistory : List ActionM) (currentStep maxSteps : Nat)
    (thought : ThoughtM) : Bool :=
  (thought.ttype == ThoughtTypeM.inference &&
    (match actionHistory.getLast? with
     | some la =>
         (la.toolName == "llm_chat" || la.toolName == "generate_city_recommendation" ||
          la.toolName == "generate_route_plan") && la.status == ActionStatusM.success
     | none => false))
  || (decide (thought.confidenceHundredths > 90) && thought.decision.isSome &&
      (match actionHistory.getLast? with
       | some la => la.status == ActionStatusM.success
       | none => false))
  || decide ((currentStep : Int) ≥ (maxSteps : Int) - 1)

/-- Abstraction of the per-run environment: `think` models
`_observe` + `_think` at a given step (the LLM- and history-driven thought
construction; it may raise an engine-level exception, e.g. from the LLM
client or the uncaught think-stream callback at react_agent.py 1308);
`act` models `_extract_action` + `_act` (executor failures, timeouts and
executor exceptions are absorbed by `_act` into a Failed action, while
`_extract_action` itself can still raise, e.g. `AttributeError` on a
decision list whose elements are not dicts). -/
structure RunEnv where
  think : Nat → Except String ThoughtM
  act : Nat → ThoughtM → Except String ActionM

/-- The `while self.state.current_step < self.max_steps` loop of
`ReActAgent.run` (react_agent.py 1294-1337).  The `fuel` argument makes the
recursion structural; `runAux_stable` below proves that any fuel of at least
`max_steps - current_step` gives the same outcome, so the `fuel = 0` base
case is never observed and the loop genuinely terminates.  The returned
`Nat` counts the loop iterations entered.  Per iteration: think (appending
to `thought_history`), fire the think-stream callback, test `_should_stop`
and break, act (appending to `action_history`), evaluate, increment
`current_step` (`_update_state`), then append the history entry
(`_record_history`, which therefore records the already-incremented step
number). -/
def addThought (st : RunStateM) (t : ThoughtM) : RunStateM :=
  { st with thoughtHistory := st.thoughtHistory ++ [t] }

/-- The state change of one full iteration after the thought: `_act` appends
the action to `action_history`, `_update_state` increments `current_step`,
and `_record_history` then appends an entry carrying the incremented step
number. -/
def advanceState (st : RunStateM) (thought : ThoughtM) (action : ActionM) : RunStateM :=
  { st with
      actionHistory := st.actionHistory ++ [action]
      currentStep := st.currentStep + 1
      history := st.history ++ [⟨st.currentStep + 1, thought, action, evaluateResult action⟩] }

def runAux (env : RunEnv) (st : RunStateM) : Nat → Nat × RunResultM
  | 0 => (0, buildResult st)
  | fuel + 1 =>
    if st.currentStep < st.maxSteps then
      match env.think st.currentStep with
      | .error e => (1, runErrorResult st e)
      | .ok thought =>
        let st1 := addThought st thought
        if shouldStop st1.actionHistory st1.currentStep st1.maxSteps thought then
          (1, buildResult st1)
        else
          match env.act st1.currentStep thought with
          | .error e => (1, runErrorResult st1 e)
          | .ok action =>
            let r := runAux env (advanceState st1 thought action) fuel
            (r.1 + 1, r.2)
    else (0, buildResult st)

/-- The state at the top of `run` (react_agent.py 1284-1290): step 0, fresh
per-run history; the agent-level histories persist from earlier runs. -/
def initRunState (task : String) (maxSteps : Nat) (actionHistory : List ActionM)
    (thoughtHistory : List ThoughtM) : RunStateM :=
  ⟨task, 0, maxSteps, [], actionHistory, thoughtHistory⟩

/-- `ReActAgent.run(task)` on a fresh agent, with the canonical fuel. -/
def ReActRun (env : RunEnv) (task : String) (maxSteps : Nat) : Nat × RunResultM :=
  runAux env (initRunState task maxSteps [] []) maxSteps

theorem addThought_currentStep (st : RunStateM) (t : ThoughtM) :
    (addThought st t).currentStep = st.currentStep := rfl

theorem addThought_maxSteps (st : RunStateM) (t : ThoughtM) :
    (addThought st t).maxSteps = st.maxSteps := rfl

theorem advanceState_currentStep (st : RunStateM) (t : ThoughtM) (a : ActionM) :
    (advanceState st t a).currentStep = st.currentStep + 1 := rfl

theorem advanceState_maxSteps (st : RunStateM) (t : ThoughtM) (a : ActionM) :
    (advanceState st t a).maxSteps = st.maxSteps := rfl

/-- Fuel-independence and iteration bound of the `run` loop: with any fuel of
at least `max_steps - current_step`, `runAux` computes the same outcome as
with the canonical fuel, and the number of loop iterations entered is at most
`max_steps - current_step`.  The loop never exits through fuel exhaustion:
`_should_stop` breaks at `current_step >= max_steps - 1`, one step before the
guard `current_step < max_steps` could fail. -/
theorem runAux_stable (env : RunEnv) :
    ∀ (fuel : Nat) (st : RunStateM), st.maxSteps - st.currentStep ≤ fuel →
    runAux env st fuel = runAux env st (st.maxSteps - st.currentStep) ∧
    (runAux env st fuel).1 ≤ st.maxSteps - st.currentStep := by
  intro fuel
  induction fuel with
  | zero =>
    intro st h
    have hd : st.maxSteps - st.currentStep = 0 := Nat.le_zero.mp h
    rw [hd]
    exact ⟨rfl, Nat.le_refl 0⟩
  | succ fuel ih =>
    intro st h
    by_cases hguard : st.currentStep < st.maxSteps
    · obtain ⟨d, hd⟩ : ∃ d, st.maxSteps - st.currentStep = d + 1 :=
        ⟨st.maxSteps - st.currentStep - 1, by omega⟩
      rw [hd]
      cases hthink : env.think st.currentStep with
      | error e =>
        simp only [runAux, if_pos hguard, hthink]
        exact ⟨trivial, by omega⟩
      | ok thought =>
        by_cases hstop : shouldStop (addThought st thought).actionHistory
            (addThought st thought).currentStep (addThought st thought).maxSteps thought = true
        · simp only [runAux, if_pos hguard, hthink, if_pos hstop]
          exact ⟨trivial, by omega⟩
        · cases hact : env.act (addThought st thought).currentStep thought with
          | error e =>
            simp only [runAux, if_pos hguard, hthink, if_neg hstop, hact]
            exact ⟨trivial, by omega⟩
          | ok action =>
            have hlt : (st.currentStep : Int) < (st.maxSteps : Int) - 1 := by
              rw [shouldStop] at hstop
              simp only [Bool.or_eq_true, decide_eq_true_eq, addThought_currentStep,
                addThought_maxSteps, not_or] at hstop
              omega
            have hd4 : (advanceState (addThought st thought) thought action).maxSteps -
                (advanceState (addThought st thought) thought action).currentStep = d := by
              simp only [advanceState_maxSteps, advanceState_currentStep,
                addThought_maxSteps, addThought_currentStep]
              omega
            have hfuel : (advanceState (addThought st thought) thought action).maxSteps -
                (advanceState (addThought st thought) thought action).currentStep ≤ fuel := by
              rw [hd4]; omega
            obtain ⟨ih1, ih2⟩ := ih (advanceState (addThought st thought) thought action) hfuel
            rw [hd4] at ih1 ih2
            rw [ih1] at ih2
            simp only [runAux, if_pos hguard, hthink, if_neg hstop, hact, ih1]
            exact ⟨trivial, by omega⟩
    · have hd : st.maxSteps - st.currentStep = 0 := by omega
      rw [hd]
      simp only [runAux, if_neg hguard]
      exact ⟨trivial, Nat.le_refl 0⟩

/-- C4: every invocation of `ReActAgent.run` terminates after at most
`max_steps` loop iterations, for every behavior of the environment (thoughts
of any confidence, actions that succeed, fail, or raise): with any fuel of at
least `max_steps` the loop computes the canonical outcome, and the number of
iterations entered is at most `max_steps`.  The exit is guaranteed by
`_should_stop`'s `current_step >= max_steps - 1` test, one step before the
`current_step < max_steps` guard would fail. -/
theorem c4_run_terminates (env : RunEnv) (task : String) (maxSteps fuel : Nat)
    (h : maxSteps ≤ fuel) :
    runAux env (initRunState task maxSteps [] []) fuel = ReActRun env task maxSteps ∧
    (ReActRun env task maxSteps).1 ≤ maxSteps := by
  have h0 : (initRunState task maxSteps [] []).maxSteps -
      (initRunState task maxSteps [] []).currentStep = maxSteps := by
    simp [initRunState]
  obtain ⟨h1, -⟩ := runAux_stable env fuel (initRunState task maxSteps [] [])
    (by rw [h0]; exact h)
  obtain ⟨-, h2'⟩ := runAux_stable env maxSteps (initRunState task maxSteps [] [])
    (by rw [h0])
  rw [h0] at h1
  rw [h0] at h2'
  exact ⟨h1, h2'⟩

/-- A concrete run environment: low-confidence analysis thoughts and
always-successful `search_cities` actions. -/
def envW : RunEnv where
  think := fun n =>
    .ok ⟨"thought_" ++ toString n, ThoughtTypeM.analysis, "分析", 80, none⟩
  act := fun n _ =>
    .ok ⟨"action_" ++ toString n, "search_cities", ActionStatusM.success,
      some (PyVal.pyDict [("success", PyVal.pyBool true)]), none, 5⟩

/-- C4 (witness): the termination theorem applied to a concrete two-step
run with surplus fuel. -/
theorem c4_run_terminates_witness :
    (2 : Nat) ≤ 5 ∧
    (runAux envW (initRunState "北京三日游" 2 [] []) 5 = ReActRun envW "北京三日游" 2 ∧
      (ReActRun envW "北京三日游" 2).1 ≤ 2) :=
  ⟨by decide, c4_run_terminates envW "北京三日游" 2 5 (by decide)⟩

/-- C6 (amended): if `ReActAgent.run` ends on its exception path
(`success = false`), the returned record carries the error message,
the task and `steps_completed`, but the `history`, `successful_steps` and
`total_duration` keys are absent: the history accumulated before the
exception is *not* included in the returned record. -/
theorem c6_error_result_shape (env : RunEnv) :
    ∀ (fuel : Nat) (st : RunStateM), (runAux env st fuel).2.success = false →
    (runAux env st fuel).2.history = none ∧
    (runAux env st fuel).2.successfulSteps = none ∧
    (runAux env st fuel).2.totalDuration = none ∧
    (runAux env st fuel).2.error.isSome = true := by
  intro fuel
  induction fuel with
  | zero =>
    intro st h
    simp [runAux, buildResult] at h
  | succ fuel ih =>
    intro st h
    by_cases hguard : st.currentStep < st.maxSteps
    · cases hthink : env.think st.currentStep with
      | error e =>
        simp only [runAux, if_pos hguard, hthink]
        simp [runErrorResult]
      | ok thought =>
        by_cases hstop : shouldStop (addThought st thought).actionHistory
            (addThought st thought).currentStep (addThought st thought).maxSteps thought = true
        · simp only [runAux, if_pos hguard, hthink, if_pos hstop] at h
          simp [buildResult] at h
        · cases hact : env.act (addThought st thought).currentStep thought with
          | error e =>
            simp only [runAux, if_pos hguard, hthink, if_neg hstop, hact]
            simp [runErrorResult]
          | ok action =>
            simp only [runAux, if_pos hguard, hthink, if_neg hstop, hact] at h ⊢
            exact ih _ h
    · simp only [runAux, if_neg hguard] at h
      simp [buildResult] at h

/-- A run environment whose first step succeeds and whose second `think`
raises an engine-level exception (e.g. the LLM client throwing on the second
call): one history entry has been recorded when the exception occurs. -/
def envC6 : RunEnv where
  think := fun n =>
    if n == 0 then .ok ⟨"thought_0", ThoughtTypeM.analysis, "分析任务", 80, none⟩
    else .error "连接失败"
  act := fun n _ =>
    .ok ⟨"action_" ++ toString n, "search_cities", ActionStatusM.success,
      some (PyVal.pyDict [("success", PyVal.pyBool true)]), none, 5⟩

/-- C6 (counterexample): an engine-level exception after one completed
iteration yields `{success: false, error: 连接失败, task, steps_completed: 1}`
with **no** `history` key — the accumulated one-entry history is not part of
the returned record, contradicting the claim that it is included. -/
theorem c6_counterexample :
    (ReActRun envC6 "北京三日游" 10).2 =
      { success := false
        error := some "连接失败"
        task := "北京三日游"
        stepsCompleted := 1
        successfulSteps := none
        totalDuration := none
        history := none } := by
  rfl

/-- C6 (witness): the error-shape theorem applied to the concrete
exceptional run. -/
theorem c6_error_result_shape_witness :
    (runAux envC6 (initRunState "北京三日游" 10 [] []) 10).2.success = false ∧
    ((runAux envC6 (initRunState "北京三日游" 10 [] []) 10).2.history = none ∧
     (runAux envC6 (initRunState "北京三日游" 10 [] []) 10).2.successfulSteps = none ∧
     (runAux envC6 (initRunState "北京三日游" 10 [] []) 10).2.totalDuration = none ∧
     (runAux envC6 (initRunState "北京三日游" 10 [] []) 10).2.error.isSome = true) :=
  ⟨rfl, c6_error_result_shape envC6 10 (initRunState "北京三日游" 10 [] []) rfl⟩

/-! ## `ToolRegistry.execute` (react_agent.py 378-420, C5) -/

/-- `ToolInfo` (react_agent.py 130-153): a plain dataclass with no methods;
`timeout` is in seconds (default 30). -/
structure ToolInfoM where
  name : String
  description : String
  parameters : PyVal
  requiredParams : List String
  timeout : Nat
  category : String
  tags : List String

/-- A registered executor: whether `asyncio.iscoroutinefunction` holds of
it, the wall-clock seconds it takes to return, and its return value as a
function of the call parameters. -/
structure ExecutorM where
  isAsync : Bool
  duration : Nat
  fn : List (String × PyVal) → PyVal

/-- `ToolRegistry`: the two dicts `self._tools` and `self._executors`,
keyed by tool name. -/
structure ToolRegistryM where
  tools : List (String × ToolInfoM)
  executors : List (String × ExecutorM)

/-- Python dict lookup on an association list. -/
def lookupStr {α : Type} (l : List (String × α)) (k : String) : Option α :=
  (l.find? (fun p => p.1 == k)).map (fun p => p.2)

/-- The exceptions `execute` raises: `ValueError` for an unknown tool, an
unregistered executor or a missing required parameter, and `TimeoutError`
re-raised from `asyncio.TimeoutError`. -/
inductive ExecError where
  | toolNotFound (name : String)
  | noExecutor (name : String)
  | missingParam (name : String)
  | timeoutErr (name : String)
deriving DecidableEq, Repr

/-- `return result if isinstance(result, dict) else {"result": result}`
(react_agent.py 418). -/
def wrapResult (v : PyVal) : PyVal :=
  match v with
  | .pyDict kvs => .pyDict kvs
  | v => .pyDict [("result", v)]

/-- `ToolRegistry.execute(tool_name, params)` (react_agent.py 378-420),
returning the elapsed seconds together with the outcome.  Validation order:
unknown tool, unregistered executor, then the first missing required
parameter, each raising `ValueError`.  An async executor runs under
`asyncio.wait_for(executor(**params), timeout=tool_info.timeout)`: if its
duration exceeds the timeout, `TimeoutError` is raised after `timeout`
seconds.  A synchronous executor runs via
`asyncio.to_thread(executor, **params)` with **no** `wait_for` around it
(react_agent.py 416), so it runs for its full natural duration whatever the
configured timeout.  A non-dict return value is wrapped as
`{"result": value}`. -/
def ToolRegistryM.execute (reg : ToolRegistryM) (toolName : String)
    (params : List (String × PyVal)) : Nat × Except ExecError PyVal :=
  match lookupStr reg.tools toolName with
  | none => (0, .error (.toolNotFound toolName))
  | some info =>
    match lookupStr reg.executors toolName with
    | none => (0, .error (.noExecutor toolName))
    | some ex =>
      match info.requiredParams.find? (fun p => !(params.any (fun q => q.1 == p))) with
      | some p => (0, .error (.missingParam p))
      | none =>
        if ex.isAsync then
          if info.timeout < ex.duration then (info.timeout, .error (.timeoutErr toolName))
          else (ex.duration, .ok (wrapResult (ex.fn params)))
        else (ex.duration, .ok (wrapResult (ex.fn params)))

/-- A registered tool with a 1-second configured timeout whose executor is
synchronous and takes 100 seconds. -/
def slowSyncInfo : ToolInfoM :=
  ⟨"slow_sync", "a slow synchronous executor", PyVal.pyDict [], [], 1, "general", []⟩

/-- The synchronous executor of `slow_sync`: runs for 100 seconds. -/
def slowSyncExec : ExecutorM :=
  ⟨false, 100, fun _ => PyVal.pyDict [("ok", PyVal.pyBool true)]⟩

/-- A registry holding only `slow_sync`. -/
def regC5 : ToolRegistryM :=
  ⟨[("slow_sync", slowSyncInfo)], [("slow_sync", slowSyncExec)]⟩

/-- C5 (counterexample): a synchronous executor is *not* limited by the
per-tool timeout.  With `slow_sync` configured with timeout 1 s and a
synchronous executor taking 100 s, `execute` returns the executor's value
after its full 100-second natural duration instead of failing with a
timeout error within 1 s, because `asyncio.to_thread` is not wrapped in
`asyncio.wait_for`. -/
theorem c5_counterexample :
    slowSyncInfo.timeout = 1 ∧ slowSyncExec.isAsync = false ∧
    slowSyncExec.duration = 100 ∧
    regC5.execute "slow_sync" [] =
      (100, .ok (PyVal.pyDict [("ok", PyVal.pyBool true)])) :=
  ⟨rfl, rfl, rfl, rfl⟩

/-- C5 (amended): for a registered tool with a registered executor,
`execute` fails with a missing-parameter `ValueError` naming the first
required parameter absent from `params`; when all required parameters are
present, an *async* executor is awaited under the per-tool timeout — an
over-long async executor yields a `TimeoutError` after exactly the timeout,
a fast one returns its (wrapped) value after its duration — while a
*synchronous* executor runs on a worker thread with **no** timeout and
always returns after its full natural duration; any non-dict return value
is wrapped as `{result: value}`. -/
theorem c5_execute_amended (reg : ToolRegistryM) (name : String)
    (params : List (String × PyVal)) (info : ToolInfoM) (ex : ExecutorM)
    (hinfo : lookupStr reg.tools name = some info)
    (hex : lookupStr reg.executors name = some ex) :
    (∀ p, info.requiredParams.find? (fun p => !(params.any (fun q => q.1 == p))) = some p →
      reg.execute name params = (0, .error (.missingParam p))) ∧
    (info.requiredParams.find? (fun p => !(params.any (fun q => q.1 == p))) = none →
      ((ex.isAsync = true → info.timeout < ex.duration →
          reg.execute name params = (info.timeout, .error (.timeoutErr name))) ∧
       (ex.isAsync = true → ex.duration ≤ info.timeout →
          reg.execute name params = (ex.duration, .ok (wrapResult (ex.fn params)))) ∧
       (ex.isAsync = false →
          reg.execute name params = (ex.duration, .ok (wrapResult (ex.fn params)))))) ∧
    (∀ v : PyVal, (∀ kvs, v ≠ PyVal.pyDict kvs) →
      wrapResult v = PyVal.pyDict [("result", v)]) := by
  refine ⟨?_, ?_, ?_⟩
  · intro p hp
    simp [ToolRegistryM.execute, hinfo, hex, hp]
  · intro hnone
    refine ⟨?_, ?_, ?_⟩
    · intro ha ht
      simp [ToolRegistryM.execute, hinfo, hex, hnone, ha, ht]
    · intro ha ht
      simp [ToolRegistryM.execute, hinfo, hex, hnone, ha, Nat.not_lt.mpr ht]
    · intro ha
      simp [ToolRegistryM.execute, hinfo, hex, hnone, ha]
  · intro v hv
    cases v with
    | pyDict kvs => exact absurd rfl (hv kvs)
    | pyNone => rfl
    | pyBool b => rfl
    | pyInt n => rfl
    | pyStr s => rfl
    | pyList xs => rfl

/-- C5 (witness): the amended theorem applied to the concrete `slow_sync`
registry, exercising the synchronous-executor clause. -/
theorem c5_execute_amended_witness :
    lookupStr regC5.tools "slow_sync" = some slowSyncInfo ∧
    lookupStr regC5.executors "slow_sync" = some slowSyncExec ∧
    ((∀ p, slowSyncInfo.requiredParams.find?
        (fun p => !(([] : List (String × PyVal)).any (fun q => q.1 == p))) = some p →
      regC5.execute "slow_sync" [] = (0, .error (.missingParam p))) ∧
     (slowSyncInfo.requiredParams.find?
        (fun p => !(([] : List (String × PyVal)).any (fun q => q.1 == p))) = none →
      ((slowSyncExec.isAsync = true → slowSyncInfo.timeout < slowSyncExec.duration →
          regC5.execute "slow_sync" [] = (slowSyncInfo.timeout, .error (.timeoutErr "slow_sync"))) ∧
       (slowSyncExec.isAsync = true → slowSyncExec.duration ≤ slowSyncInfo.timeout →
          regC5.execute "slow_sync" [] =
            (slowSyncExec.duration, .ok (wrapResult (slowSyncExec.fn [])))) ∧
       (slowSyncExec.isAsync = false →
          regC5.execute "slow_sync" [] =
            (slowSyncExec.duration, .ok (wrapResult (slowSyncExec.fn [])))))) ∧
     (∀ v : PyVal, (∀ kvs, v ≠ PyVal.pyDict kvs) →
      wrapResult v = PyVal.pyDict [("result", v)])) :=
  ⟨rfl, rfl, c5_execute_amended regC5 "slow_sync" [] slowSyncInfo slowSyncExec rfl rfl⟩

/-! ## `LLMClient.chat` retry loop (src/shuai_travel_agent/llm_client.py 134-190, C7) -/

/-- Outcome of one attempt of the HTTP POST inside `chat`: success with the
parsed message content, `urllib.error.HTTPError` with status and body,
`urllib.error.URLError` with a reason, or any other exception. -/
inductive AttemptOutcome where
  | ok (content : String)
  | httpError (code : Nat) (body : String)
  | urlError (reason : String)
  | otherError (msg : String)
deriving DecidableEq, Repr

/-- The dict returned by `chat` (`usage`/`model` omitted). -/
structure ChatResultM where
  success : Bool
  content : Option String
  error : Option String
deriving DecidableEq, Repr

/-- The error string of the failure record returned on the final attempt
(llm_client.py 160-185). -/
def attemptErrorString : AttemptOutcome → String
  | .ok _ => ""
  | .httpError code body => "HTTP " ++ toString code ++ ": " ++ body
  | .urlError reason => "网络错误: " ++ reason
  | .otherError msg => "未知错误: " ++ msg

/-- The `for attempt in range(self.max_retries)` loop of `chat`
(llm_client.py 134-190) from attempt index `attempt` on, driven by an
oracle of attempt outcomes.  Returns the result dict and the list of
back-off sleeps performed.  *Every* failure kind — `HTTPError`, `URLError`
and any other exception — sleeps `2 ** attempt` seconds and retries while
`attempt < self.max_retries - 1`, and on the final attempt returns the
formatted failure record; the fall-through after the loop returns the
exceeded-retries record. -/
def chatLoop (oracle : Nat → AttemptOutcome) (maxRetries attempt : Nat) :
    ChatResultM × List Nat :=
  if _h : attempt < maxRetries then
    match oracle attempt with
    | .ok content => (⟨true, some content, none⟩, [])
    | outcome =>
      if attempt < maxRetries - 1 then
        let r := chatLoop oracle maxRetries (attempt + 1)
        (r.1, 2 ^ attempt :: r.2)
      else (⟨false, none, some (attemptErrorString outcome)⟩, [])
  else (⟨false, none, some "超过最大重试次数"⟩, [])
termination_by maxRetries - attempt
decreasing_by omega

/-- `LLMClient.chat(messages)`: the retry loop started at attempt 0. -/
def llmChat (oracle : Nat → AttemptOutcome) (maxRetries : Nat) :
    ChatResultM × List Nat :=
  chatLoop oracle maxRetries 0

/-- The oracle of a call whose first attempt hits an HTTP 500 error response
and whose second attempt succeeds. -/
def oracleC7 : Nat → AttemptOutcome :=
  fun n => if n == 0 then .httpError 500 "Internal Server Error" else .ok "好的"

/-- C7 (counterexample): an HTTP error response is *not* terminal.  With
`max_retries = 3`, a first attempt answered by HTTP 500 is retried after a
`2^0 = 1` second back-off sleep, and the call returns the second attempt's
success — no failure record with the status and body is returned. -/
theorem c7_counterexample :
    oracleC7 0 = .httpError 500 "Internal Server Error" ∧
    llmChat oracleC7 3 = (⟨true, some "好的", none⟩, [1]) := by
  constructor
  · rfl
  · rw [llmChat, chatLoop]
    rw [chatLoop]
    rfl

theorem chatLoop_fail_eq (oracle : Nat → AttemptOutcome) (maxRetries attempt : Nat)
    (h1 : attempt < maxRetries) (h2 : ∀ c, oracle attempt ≠ .ok c) :
    chatLoop oracle maxRetries attempt =
      if attempt < maxRetries - 1 then
        ((chatLoop oracle maxRetries (attempt + 1)).1,
          2 ^ attempt :: (chatLoop oracle maxRetries (attempt + 1)).2)
      else (⟨false, none, some (attemptErrorString (oracle attempt))⟩, []) := by
  rw [chatLoop, dif_pos h1]
  cases hor : oracle attempt with
  | ok c => exact absurd hor (h2 c)
  | httpError code body => rfl
  | urlError r => rfl
  | otherError m => rfl

theorem chatLoop_ok_eq (oracle : Nat → AttemptOutcome) (maxRetries attempt : Nat)
    (c : String) (h1 : attempt < maxRetries) (h2 : oracle attempt = .ok c) :
    chatLoop oracle maxRetries attempt = (⟨true, some c, none⟩, []) := by
  rw [chatLoop, dif_pos h1, h2]

theorem chatLoop_len_le (oracle : Nat → AttemptOutcome) (maxRetries : Nat) :
    ∀ (d attempt : Nat), maxRetries - attempt ≤ d →
    (chatLoop oracle maxRetries attempt).2.length ≤ maxRetries - attempt - 1 := by
  intro d
  induction d with
  | zero =>
    intro attempt h
    rw [chatLoop, dif_neg (by omega)]
    simp
  | succ d ih =>
    intro attempt h
    by_cases h1 : attempt < maxRetries
    · cases hor : oracle attempt with
      | ok c => rw [chatLoop_ok_eq oracle maxRetries attempt c h1 hor]; simp
      | httpError code body =>
        rw [chatLoop_fail_eq oracle maxRetries attempt h1 (by simp [hor])]
        by_cases h2 : attempt < maxRetries - 1
        · rw [if_pos h2]
          have := ih (attempt + 1) (by omega)
          simp only [List.length_cons]
          omega
        · rw [if_neg h2]; simp
      | urlError r =>
        rw [chatLoop_fail_eq oracle maxRetries attempt h1 (by simp [hor])]
        by_cases h2 : attempt < maxRetries - 1
        · rw [if_pos h2]
          have := ih (attempt + 1) (by omega)
          simp only [List.length_cons]
          omega
        · rw [if_neg h2]; simp
      | otherError m =>
        rw [chatLoop_fail_eq oracle maxRetries attempt h1 (by simp [hor])]
        by_cases h2 : attempt < maxRetries - 1
        · rw [if_pos h2]
          have := ih (attempt + 1) (by omega)
          simp only [List.length_cons]
          omega
        · rw [if_neg h2]; simp
    · rw [chatLoop, dif_neg h1]; simp

theorem chatLoop_sleeps_range (oracle : Nat → AttemptOutcome) (maxRetries : Nat) :
    ∀ (d attempt : Nat), maxRetries - attempt ≤ d →
    (chatLoop oracle maxRetries attempt).2 =
      (List.range' attempt (chatLoop oracle maxRetries attempt).2.length).map
        (fun i => 2 ^ i) := by
  intro d
  induction d with
  | zero =>
    intro attempt h
    rw [chatLoop, dif_neg (by omega)]
    rfl
  | succ d ih =>
    intro attempt h
    by_cases h1 : attempt < maxRetries
    · cases hor : oracle attempt with
      | ok c => rw [chatLoop_ok_eq oracle maxRetries attempt c h1 hor]; rfl
      | httpError code body =>
        rw [chatLoop_fail_eq oracle maxRetries attempt h1 (by simp [hor])]
        by_cases h2 : attempt < maxRetries - 1
        · rw [if_pos h2]
          simp only [List.length_cons]
          rw [List.range'_succ, List.map_cons]
          rw [ih (attempt + 1) (by omega)]
          simp
        · rw [if_neg h2]; rfl
      | urlError r =>
        rw [chatLoop_fail_eq oracle maxRetries attempt h1 (by simp [hor])]
        by_cases h2 : attempt < maxRetries - 1
        · rw [if_pos h2]
          simp only [List.length_cons]
          rw [List.range'_succ, List.map_cons]
          rw [ih (attempt + 1) (by omega)]
          simp
        · rw [if_neg h2]; rfl
      | otherError m =>
        rw [chatLoop_fail_eq oracle maxRetries attempt h1 (by simp [hor])]
        by_cases h2 : attempt < maxRetries - 1
        · rw [if_pos h2]
          simp only [List.length_cons]
          rw [List.range'_succ, List.map_cons]
          rw [ih (attempt + 1) (by omega)]
          simp
        · rw [if_neg h2]; rfl
    · rw [chatLoop, dif_neg h1]; rfl

/-- C7 (amended): `LLMClient.chat` treats transport errors, HTTP error
responses and any other exception alike.  (1) On any failed attempt that is
not the last, it sleeps `2 ^ attempt` seconds and retries — in particular an
HTTP error response *is* retried; (2) an HTTP error on the final attempt
returns a failure record whose error propagates the HTTP status code and
the response body; (3) at most `max_retries` attempts are made (at most
`max_retries - 1` back-off sleeps); (4) the back-off sleeps of a call are
exactly `2^0, 2^1, …` in order. -/
theorem c7_chat_retry_amended :
    (∀ (oracle : Nat → AttemptOutcome) (maxRetries attempt : Nat),
        attempt < maxRetries - 1 → (∀ c, oracle attempt ≠ .ok c) →
        chatLoop oracle maxRetries attempt =
          ((chatLoop oracle maxRetries (attempt + 1)).1,
            2 ^ attempt :: (chatLoop oracle maxRetries (attempt + 1)).2)) ∧
    (∀ (oracle : Nat → AttemptOutcome) (maxRetries code : Nat) (body : String),
        1 ≤ maxRetries → oracle (maxRetries - 1) = .httpError code body →
        chatLoop oracle maxRetries (maxRetries - 1) =
          (⟨false, none, some ("HTTP " ++ toString code ++ ": " ++ body)⟩, [])) ∧
    (∀ (oracle : Nat → AttemptOutcome) (maxRetries : Nat),
        (llmChat oracle maxRetries).2.length ≤ maxRetries - 1) ∧
    (∀ (oracle : Nat → AttemptOutcome) (maxRetries : Nat),
        (llmChat oracle maxRetries).2 =
          (List.range (llmChat oracle maxRetries).2.length).map (fun i => 2 ^ i)) := by
  refine ⟨?_, ?_, ?_, ?_⟩
  · intro oracle maxRetries attempt h1 h2
    rw [chatLoop_fail_eq oracle maxRetries attempt (by omega) h2, if_pos h1]
  · intro oracle maxRetries code body h1 h2
    rw [chatLoop_fail_eq oracle maxRetries (maxRetries - 1) (by omega) (by simp [h2]),
      if_neg (by omega), h2]
    rfl
  · intro oracle maxRetries
    simpa using chatLoop_len_le oracle maxRetries maxRetries 0 (by omega)
  · intro oracle maxRetries
    have := chatLoop_sleeps_range oracle maxRetries maxRetries 0 (by omega)
    simpa [llmChat, List.range_eq_range'] using this

/-- C7 (witness): the retry clause applied to the concrete call whose first
attempt is an HTTP 500: the call retries with a 1-second back-off. -/
theorem c7_chat_retry_amended_witness :
    (0 : Nat) < 3 - 1 ∧
    chatLoop oracleC7 3 0 =
      ((chatLoop oracleC7 3 1).1, 2 ^ 0 :: (chatLoop oracleC7 3 1).2) :=
  ⟨by decide, c7_chat_retry_amended.1 oracleC7 3 0 (by decide)
    (fun c h => by rw [oracleC7] at h; simp at h)⟩

/-! ## Plan-mode step execution (travel_agent.py `_process_plan_mode`, C8) -/

/-- One parsed plan step `{step, action, params, description}`. -/
structure PlanStep where
  step : Nat
  action : String
  params : List (String × PyVal)
  description : String

/-- One entry of the plan-mode `history` list (travel_agent.py 1628-1634). -/
structure PlanHistEntry where
  step : Nat
  action : String
  params : List (String × PyVal)
  result : PyVal
  description : String

/-- The dynamic call
`await tool.execute(**params) if hasattr(tool, 'execute') else tool(params)`
(travel_agent.py 1618), where `tool` is the `ToolInfo` dataclass instance
returned by `tool_registry.get_tool(action_name)`.  `ToolInfo`
(react_agent.py 130-153) is a plain dataclass defining only the fields
`name, description, parameters, required_params, timeout, category, tags`:
it has no attribute `execute`, so `hasattr(tool, 'execute')` is False, and
it defines no `__call__`, so `tool(params)` raises `TypeError` (whose
message Python renders as `ToolInfo object is not callable` with the class
name in single quotes).  The registered executor is never reached. -/
def planToolCall (_tool : ToolInfoM) (_params : List (String × PyVal)) :
    Except String PyVal :=
  .error "ToolInfo object is not callable"

/-- Python truthiness of a value, for `result.get('success')` tests. -/
def pyTruthy : PyVal → Bool
  | .pyNone => false
  | .pyBool b => b
  | .pyInt n => n != 0
  | .pyStr s => s != ""
  | .pyList xs => !xs.isEmpty
  | .pyDict kvs => !kvs.isEmpty

/-- Is a step result a dict whose `success` entry is truthy
(`h.get('result', {}).get('success')`, travel_agent.py 1641)? -/
def resultSuccess (v : PyVal) : Bool :=
  match v with
  | .pyDict kvs =>
    match lookupStr kvs "success" with
    | some s => pyTruthy s
    | none => false
  | _ => false

/-- The per-step execution of `_process_plan_mode` (travel_agent.py
1612-1623): `result = {'success': False}`; when the step names a tool other
than `none` and `get_tool` finds its `ToolInfo`, attempt the dynamic call,
and on exception set `result = {'success': False, 'error': str(e)}`. -/
def planStepResult (reg : ToolRegistryM) (actionName : String)
    (params : List (String × PyVal)) : PyVal :=
  if actionName != "" && actionName != "none" then
    match lookupStr reg.tools actionName with
    | some tool =>
      match planToolCall tool params with
      | .ok r => r
      | .error e =>
          PyVal.pyDict [("success", PyVal.pyBool false), ("error", PyVal.pyStr e)]
    | none => PyVal.pyDict [("success", PyVal.pyBool false)]
  else PyVal.pyDict [("success", PyVal.pyBool false)]

/-- The step loop (travel_agent.py 1599-1634): step `i` (0-based) is
recorded as `{step: i+1, action, params, result, description}`. -/
def planExecuteSteps (reg : ToolRegistryM) (steps : List PlanStep) :
    List PlanHistEntry :=
  steps.enum.map (fun p =>
    ⟨p.1 + 1, p.2.action, p.2.params,
      planStepResult reg p.2.action p.2.params, p.2.description⟩)

/-- The observable outcome of plan mode: the step history, the arguments of
the successive `answer_callback` invocations, and the final answer. -/
structure PlanModeOutcome where
  history : List PlanHistEntry
  answerCalls : List String
  answer : String

/-- Steps 2-3 of `_process_plan_mode` (travel_agent.py 1595-1663): execute
the parsed steps sequentially; collect `tool_results` (successful step
results, travel_agent.py 1641); produce the final answer from the results
via a unary LLM call when any step succeeded
(`_generate_answer_from_results`, whose content the oracle
`answerFromResults` supplies), otherwise via the fallback unary LLM summary
call (`llmFinalAnswer`); then send the whole answer through
`answer_callback` in a **single** call (travel_agent.py 1660-1661). -/
def processPlanMode (reg : ToolRegistryM) (steps : List PlanStep)
    (answerFromResults llmFinalAnswer : String) : PlanModeOutcome :=
  let history := planExecuteSteps reg steps
  let toolResults := (history.map (fun h => h.result)).filter resultSuccess
  let answer := if !toolResults.isEmpty then answerFromResults else llmFinalAnswer
  ⟨history, [answer], answer⟩

/-- The `ToolInfo` of the registered tool `search_cities`
(travel_agent.py 100-130): no required parameters, 30 s timeout. -/
def searchCitiesInfo : ToolInfoM :=
  ⟨"search_cities", "根据用户兴趣、预算和季节偏好搜索匹配的城市", PyVal.pyDict [],
    [], 30, "travel", []⟩

/-- A registry with `search_cities` registered together with its executor
(which plan mode never reaches). -/
def regC8 : ToolRegistryM :=
  ⟨[("search_cities", searchCitiesInfo)],
   [("search_cities", ⟨false, 0, fun _ => PyVal.pyDict [("success", PyVal.pyBool true)]⟩)]⟩

/-- C8: evaluation of plan mode at the failing input — a plan whose single
step names the registered tool `search_cities` with valid (empty, none
required) parameters.  The step does *not* yield the tool's execution
result: `get_tool` returns the `ToolInfo` metadata object, the dynamic call
`tool.execute(**params) if hasattr(tool, 'execute') else tool(params)`
raises `TypeError`, and the step history records
`{'success': False, 'error': 'ToolInfo' object is not callable}`; no step
succeeds, so the final answer comes from the fallback LLM call, and that
answer is passed to `answer_callback` in one single call rather than once
per token. -/
theorem c8_plan_step_eval :
    lookupStr regC8.tools "search_cities" = some searchCitiesInfo ∧
    processPlanMode regC8 [⟨1, "search_cities", [], "搜索匹配的城市"⟩]
        "来自工具结果的回答" "兜底回答" =
      ⟨[⟨1, "search_cities", [],
          PyVal.pyDict [("success", PyVal.pyBool false),
            ("error", PyVal.pyStr "ToolInfo object is not callable")],
          "搜索匹配的城市"⟩],
        ["兜底回答"], "兜底回答"⟩ :=
  ⟨rfl, rfl⟩

/-! ## Gateway RPC-to-SSE re-framer (web/src/routes/chat.py 206-353, C9 & C10) -/

/-- One SSE event: its `type` and optional content payload (the session id
for `session_id` events; a `heartbeat` carries only a timestamp, modelled by
the emission time attached to each event). -/
structure SSEEvent where
  type : String
  content : Option String
deriving DecidableEq, Repr

/-- A frame received from the Agent, tagged with its arrival time in
seconds since the stream handler started. -/
structure TimedChunk where
  time : Nat
  chunk : StreamChunk
deriving DecidableEq, Repr

/-- The translation dispatch (chat.py 298-321): the SSE events emitted for
one RPC frame, and whether the branch itself breaks the loop (only `done`
does).  The `error` branch emits the four-event recovery block — a
reasoning chunk prefixed 处理出错, `reasoning_end`, `answer_start` and a
friendly fallback `chunk` — and does **not** emit a `done`; the loop then
stops through the frame's `is_last` flag (chat.py 323-324).  An unknown tag
emits nothing. -/
def translateChunk (c : StreamChunk) : List SSEEvent × Bool :=
  if c.chunkType == "thinking_start" then ([⟨"reasoning_start", none⟩], false)
  else if c.chunkType == "thinking_chunk" then ([⟨"reasoning_chunk", some c.content⟩], false)
  else if c.chunkType == "thinking_end" then ([⟨"reasoning_end", none⟩], false)
  else if c.chunkType == "answer_start" then ([⟨"answer_start", none⟩], false)
  else if c.chunkType == "answer" then ([⟨"chunk", some c.content⟩], false)
  else if c.chunkType == "error" then
    ([⟨"reasoning_chunk", some ("处理出错: " ++ c.content)⟩,
      ⟨"reasoning_end", none⟩,
      ⟨"answer_start", none⟩,
      ⟨"chunk", some "抱歉，处理您的请求时出现问题。"⟩], false)
  else if c.chunkType == "done" then ([⟨"done", none⟩], true)
  else ([], false)

/-- The `for chunk in chunk_iterator` loop (chat.py 275-324) over timed
frames.  The body runs only when a frame arrives; on arrival at time `t`,
if `t - last_heartbeat >= 30` a heartbeat is emitted first and
`last_heartbeat` is reset to `t` (chat.py 288-295) — this is the only place
the timer is read or reset; then the frame's translation events are
emitted; then the loop stops if the branch broke (`done`) or the frame had
`is_last` (chat.py 323-324).  Every emission is stamped with the arrival
time of the frame being handled, since nothing runs between arrivals. -/
def gatewayLoop (lastHb : Nat) : List TimedChunk → List (Nat × SSEEvent)
  | [] => []
  | tc :: rest =>
    let hb : List (Nat × SSEEvent) :=
      if 30 ≤ tc.time - lastHb then [(tc.time, ⟨"heartbeat", none⟩)] else []
    let lastHb1 := if 30 ≤ tc.time - lastHb then tc.time else lastHb
    let tr := translateChunk tc.chunk
    hb ++ tr.1.map (fun e => (tc.time, e)) ++
      (if tr.2 || tc.chunk.isLast then [] else gatewayLoop lastHb1 rest)

/-- `generate_chat_stream` (chat.py 206-326) for a request carrying a
session id: the initial `session_id` event at stream start (time 0, which
also initializes `last_heartbeat`), then the translation loop. -/
def generateChatStream (sessionId : String) (chunks : List TimedChunk) :
    List (Nat × SSEEvent) :=
  (0, ⟨"session_id", some sessionId⟩) :: gatewayLoop 0 chunks

/-- C9 (counterexample): on an `error` RPC frame the Gateway emits the
reasoning chunk prefixed 处理出错, `reasoning_end`, `answer_start` and the
friendly fallback `chunk`, and then stops **without** emitting the final
`{type: done}` the claim requires: no `done` event appears in the stream. -/
theorem c9_counterexample :
    generateChatStream "sid" [⟨5, ⟨"error", "连接超时", true⟩⟩] =
      [(0, ⟨"session_id", some "sid"⟩),
       (5, ⟨"reasoning_chunk", some "处理出错: 连接超时"⟩),
       (5, ⟨"reasoning_end", none⟩),
       (5, ⟨"answer_start", none⟩),
       (5, ⟨"chunk", some "抱歉，处理您的请求时出现问题。"⟩)] ∧
    (generateChatStream "sid" [⟨5, ⟨"error", "连接超时", true⟩⟩]).filter
        (fun p => p.2.type == "done") = [] := by
  exact ⟨rfl, rfl⟩

/-- C9 (amended): when the Gateway receives an RPC frame with `chunk_type`
`error` (the Agent always sets `is_last` on it) and the heartbeat timer has
not expired, it emits exactly `{type: reasoning_chunk}` with the error text
prefixed 处理出错, `{type: reasoning_end}`, `{type: answer_start}` and one
`{type: chunk}` with the friendly fallback message, and then stops — no
`{type: done}` is emitted and no further frame is processed. -/
theorem c9_error_branch_amended (lastHb t : Nat) (e : String)
    (rest : List TimedChunk) (hhb : t - lastHb < 30) :
    gatewayLoop lastHb (⟨t, ⟨"error", e, true⟩⟩ :: rest) =
      [(t, ⟨"reasoning_chunk", some ("处理出错: " ++ e)⟩),
       (t, ⟨"reasoning_end", none⟩),
       (t, ⟨"answer_start", none⟩),
       (t, ⟨"chunk", some "抱歉，处理您的请求时出现问题。"⟩)] := by
  simp [gatewayLoop, translateChunk, Nat.not_le.mpr hhb]

/-- C9 (witness): the amended error-branch theorem at a concrete frame. -/
theorem c9_error_branch_amended_witness :
    (5 : Nat) - 0 < 30 ∧
    gatewayLoop 0 [⟨5, ⟨"error", "后端异常", true⟩⟩] =
      [(5, ⟨"reasoning_chunk", some ("处理出错: " ++ "后端异常")⟩),
       (5, ⟨"reasoning_end", none⟩),
       (5, ⟨"answer_start", none⟩),
       (5, ⟨"chunk", some "抱歉，处理您的请求时出现问题。"⟩)] :=
  ⟨by decide, c9_error_branch_amended 0 5 "后端异常" [] (by decide)⟩

/-- C10 (counterexample): heartbeats are evaluated only when a frame
arrives, so a silent Agent produces no heartbeat at all.  With the Agent
silent from time 0 (after `thinking_start`) until a `done` frame at time
100 — a frame-less period of 100 s ≥ 30 s — the Gateway emits *nothing*
strictly between times 0 and 100: the single heartbeat appears only at
time 100, together with the `done`, not within `30 + ε` seconds of the
silence for any ε < 70.  (It also shows the timer is not reset by ordinary
emissions: only the heartbeat emission resets it.) -/
theorem c10_counterexample :
    generateChatStream "sid"
        [⟨0, ⟨"thinking_start", "", false⟩⟩, ⟨100, ⟨"done", "", true⟩⟩] =
      [(0, ⟨"session_id", some "sid"⟩),
       (0, ⟨"reasoning_start", none⟩),
       (100, ⟨"heartbeat", none⟩),
       (100, ⟨"done", none⟩)] ∧
    (∀ p ∈ generateChatStream "sid"
        [⟨0, ⟨"thinking_start", "", false⟩⟩, ⟨100, ⟨"done", "", true⟩⟩],
      p.1 = 0 ∨ p.1 = 100) := by
  refine ⟨rfl, ?_⟩
  intro p hp
  rw [show generateChatStream "sid"
        [⟨0, ⟨"thinking_start", "", false⟩⟩, ⟨100, ⟨"done", "", true⟩⟩] =
      [(0, ⟨"session_id", some "sid"⟩), (0, ⟨"reasoning_start", none⟩),
       (100, ⟨"heartbeat", none⟩), (100, ⟨"done", none⟩)] from rfl] at hp
  simp at hp
  rcases hp with h | h | h | h <;> simp [h]

/-- C10 (amended): the Gateway's heartbeat is lazy.  (1) Every SSE emission
of the loop happens at the arrival time of some Agent frame — during a
frame-less period the Gateway emits nothing, heartbeats included; (2) when
a frame arrives 30 s or more after the last heartbeat (initially the stream
start), exactly one heartbeat is emitted immediately before that frame's
translation, and only this resets the timer. -/
theorem c10_heartbeat_amended :
    (∀ (lastHb : Nat) (chunks : List TimedChunk) (p : Nat × SSEEvent),
        p ∈ gatewayLoop lastHb chunks → ∃ tc ∈ chunks, p.1 = tc.time) ∧
    (∀ (lastHb : Nat) (tc : TimedChunk) (rest : List TimedChunk),
        30 ≤ tc.time - lastHb →
        ∃ l, gatewayLoop lastHb (tc :: rest) =
          (tc.time, ⟨"heartbeat", none⟩) :: l) := by
  constructor
  · intro lastHb chunks
    induction chunks generalizing lastHb with
    | nil => intro p hp; simp [gatewayLoop] at hp
    | cons tc rest ih =>
      intro p hp
      simp only [gatewayLoop, List.mem_append] at hp
      rcases hp with (hp | hp) | hp
      · refine ⟨tc, List.mem_cons_self _ _, ?_⟩
        by_cases hb : 30 ≤ tc.time - lastHb
        · simp [if_pos hb] at hp
          simp [hp]
        · simp [if_neg hb] at hp
      · rcases List.mem_map.mp hp with ⟨e, -, he⟩
        exact ⟨tc, List.mem_cons_self _ _, by simp [← he]⟩
      · by_cases hstop : (translateChunk tc.chunk).2 || tc.chunk.isLast
        · rw [if_pos hstop] at hp
          simp at hp
        · simp only [if_neg hstop] at hp
          rcases ih _ _ hp with ⟨tc', htc', he⟩
          exact ⟨tc', List.mem_cons_of_mem _ htc', he⟩
  · intro lastHb tc rest hhb
    refine ⟨(translateChunk tc.chunk).1.map (fun e => (tc.time, e)) ++
      (if (translateChunk tc.chunk).2 || tc.chunk.isLast then []
       else gatewayLoop tc.time rest), ?_⟩
    simp [gatewayLoop, if_pos hhb]

/-- C10 (witness): the lazy-heartbeat theorem at a concrete frame arriving
40 s into a silent stream. -/
theorem c10_heartbeat_amended_witness :
    (30 : Nat) ≤ 40 - 0 ∧
    (∃ l, gatewayLoop 0 [⟨40, ⟨"done", "", true⟩⟩] =
      (40, ⟨"heartbeat", none⟩) :: l) :=
  ⟨by decide, c10_heartbeat_amended.2 0 ⟨40, ⟨"done", "", true⟩⟩ [] (by decide)⟩
